import Mathlib

/-!
Verification of the CLAT control-plane core
(`com_android_server_connectivity_ClatCoordinator.cpp` and the native
helper library it bridges to).

The JNI bridge in the source file is embedded directly: each wrapper
becomes a Lean function over the parsed inputs, with libc / OS services
(inet_pton, inet_ntop, strerror, open, ioctl, the probe socket, the
interface-address table) passed in as explicit oracle parameters, since
they are outside the program.  The native helper routines
(`net::clat::selectIpv4Address`, `net::clat::generateIpv6Address`,
`net::clat::detect_mtu`) are not part of the visible sources; they are
modelled from the specification, as marked on each definition.
-/

namespace Clat

/-- Ones-complement 16-bit addition with end-around carry. -/
def oadd (a b : Nat) : Nat := (a + b) % 65536 + (a + b) / 65536

/-- Ones-complement 16-bit checksum of a 32-bit word: end-around-carry
fold of its two 16-bit halves. -/
def csum16 (w : Nat) : Nat := oadd (w / 65536 % 65536) (w % 65536)

/-- Modelled from the spec: step 3 of the checksum-neutral IID
generator.  Given the target checksum `t` of the embedded IPv4 address
and an entropy-derived candidate `seed`, adjust the candidate's
checksum contribution so that the identifier's ones-complement 16-bit
checksum equals `t`. -/
def neutralIdentifier (t seed : Nat) : Nat :=
  if t = 0 then 0
  else if seed % 65536 ≤ t then seed % 65536 * 65536 + (t - seed % 65536)
  else seed % 65536 * 65536 + (t + 65535 - seed % 65536)

/-- Result of the checksum-neutral IID generator (`Found(address)` or
`Exhausted`, per the spec's tagged-variant recommendation). -/
inductive GenResult where
  | Found (addr : Nat)
  | NoSourceAddress
deriving DecidableEq, Repr

/-- Modelled from the spec: the bounded perturbation loop of
`net::clat::generateIpv6Address` (native helper, not in the visible
sources).  At each remaining attempt it derives a candidate identifier
from entropy, adjusts it to be checksum neutral with the IPv4 address,
concatenates the NAT64 /96 high bits with the identifier, and keeps the
first candidate not already assigned in the interface scope. -/
def genLoop (seedFn : Nat → Nat) (assigned : List Nat) (pfx128 v4 : Nat) :
    Nat → GenResult
  | 0 => .NoSourceAddress
  | n + 1 =>
      let id := neutralIdentifier (csum16 v4) (seedFn n)
      let addr := pfx128 / 4294967296 * 4294967296 + id
      if addr ∈ assigned then genLoop seedFn assigned pfx128 v4 n
      else .Found addr

/-- Environment of the generator: interface-derived entropy, the
per-interface assigned-address table, and the attempt budget. -/
structure GenEnv where
  seedFn : String → Nat → Nat
  assigned : String → List Nat
  budget : Nat

/-- Modelled from the spec: `net::clat::generateIpv6Address` (native
helper, not in the visible sources).  Pure function of the environment,
the interface name, the IPv4 address and the parsed 128-bit NAT64
/96 value. -/
def generateIpv6Address (genv : GenEnv) (iface : String) (v4 pfx128 : Nat) :
    GenResult :=
  genLoop (genv.seedFn iface) (genv.assigned iface) pfx128 v4 genv.budget

/-- Size of the subnet `base/plen` (number of addresses). -/
def subnetSize (plen : Nat) : Nat := 2 ^ (32 - plen)

/-- Network (lowest) address of the subnet containing `base`. -/
def networkOf (base plen : Nat) : Nat :=
  base / subnetSize plen * subnetSize plen

/-- Modelled from the spec: the candidate host addresses of the subnet
`base/plen`, in order, excluding the network and broadcast
addresses. -/
def hostCandidates (base plen : Nat) : List Nat :=
  ((List.range (subnetSize plen)).map (fun i => networkOf base plen + i)).filter
    (fun a => decide (a ≠ networkOf base plen ∧
      a ≠ networkOf base plen + subnetSize plen - 1))

/-- Modelled from the spec: `net::clat::selectIpv4Address` (native
helper, not in the visible sources).  `assigned` is the live
interface-address table queried at call time; the result is the first
candidate host address not currently assigned, or `none` (the NotFound
condition, `INADDR_NONE` in the bridge) when the subnet is
exhausted. -/
def selectIpv4Address (assigned : List Nat) (base plen : Nat) : Option Nat :=
  if plen ≤ 32 then
    (hostCandidates base plen).find? (fun a => decide (a ∉ assigned))
  else none

/-- Outcome of a JNI bridge call: a returned value, a pending
`IOException` with its message (the wrapper also returns its error
sentinel in that case), or a bare null return with no pending
exception. -/
inductive JResult (α : Type) where
  | ok (val : α)
  | thrown (msg : String)
  | nullReturn
deriving DecidableEq, Repr

/-- Is the outcome a pending exception? -/
def JResult.isThrown {α : Type} : JResult α → Bool
  | .thrown _ => true
  | _ => false

/-- Dotted-decimal rendering of a 32-bit IPv4 address
(inet_ntop AF_INET, which cannot fail on a valid buffer). -/
def ipv4ToDotted (ip : Nat) : String :=
  toString (ip / 16777216 % 256) ++ "." ++ toString (ip / 65536 % 256) ++
    "." ++ toString (ip / 256 % 256) ++ "." ++ toString (ip % 256)

/-- Embedding of
`com_android_server_connectivity_ClatCoordinator_selectIpv4Address`.
`pton4` is the libc `inet_pton(AF_INET, ...)` oracle; when it rejects
the string the wrapper returns null without raising anything, otherwise
it runs the selector over the live address table and either throws the
no-free-address `IOException` or renders the chosen address. -/
def selectIpv4AddressJNI (pton4 : String → Option Nat)
    (assigned : List Nat) (v4addr : String) (plen : Nat) : JResult String :=
  match pton4 v4addr with
  | none => .nullReturn
  | some ip =>
      match selectIpv4Address assigned ip plen with
      | none => .thrown ("No free IPv4 address in " ++ v4addr ++ "/" ++
          toString plen)
      | some v4 => .ok (ipv4ToDotted v4)

/-- Embedding of
`com_android_server_connectivity_ClatCoordinator_generateIpv6Address`.
The interface argument is `none` when the caller passed a null string
(the only case in which `ScopedUtfChars::c_str()` is null); `pton4` and
`pton6` are the libc parsing oracles and `ntop6` the IPv6 rendering
oracle. -/
def generateIpv6AddressJNI (pton4 pton6 : String → Option Nat)
    (ntop6 : Nat → String) (genv : GenEnv) (iface : Option String)
    (v4s pfxs : String) : JResult String :=
  match iface with
  | none => .thrown "Invalid null interface name"
  | some ifname =>
      match pton4 v4s with
      | none => .thrown ("Invalid clat v4 address " ++ v4s)
      | some v4 =>
          match pton6 pfxs with
          | none => .thrown ("Invalid prefix " ++ pfxs)
          | some pfx128 =>
              match generateIpv6Address genv ifname v4 pfx128 with
              | .NoSourceAddress => .thrown
                  ("Unable to find global source address on " ++ ifname ++
                    " for " ++ pfxs)
              | .Found addr => .ok (ntop6 addr)

/-- Linux `O_RDWR`. -/
def O_RDWR : Nat := 2

/-- Linux `O_NONBLOCK`. -/
def O_NONBLOCK : Nat := 2048

/-- Linux `O_CLOEXEC`. -/
def O_CLOEXEC : Nat := 524288

/-- Linux `IFF_TUN` (point-to-point, non-Ethernet framing). -/
def IFF_TUN : Nat := 1

/-- Linux `IFF_TAP` (Ethernet framing; must not be requested). -/
def IFF_TAP : Nat := 2

/-- Linux `TUNSETIFF` ioctl request number. -/
def TUNSETIFF : Nat := 1074025674

/-- Linux `IFNAMSIZ`: size of `ifreq.ifr_name`, terminator included. -/
def IFNAMSIZ : Nat := 16

/-- The flag word the source passes to `open`:
`O_RDWR | O_NONBLOCK | O_CLOEXEC`. -/
def tunOpenFlags : Nat := O_RDWR ||| O_NONBLOCK ||| O_CLOEXEC

/-- Model of `strlcpy(ifr.ifr_name, name, IFNAMSIZ)`: at most `IFNAMSIZ - 1`
characters are copied, the rest is dropped. -/
def truncateIfname (s : String) : String := ⟨s.data.take (IFNAMSIZ - 1)⟩

/-- OS calls performed by the tunnel acquirer, in order. -/
inductive OsCall where
  | openOk (path : String) (flags : Nat) (fd : Nat)
  | openErr (path : String) (flags : Nat) (er : Nat)
  | ioctlReq (fd : Nat) (req : Nat) (ifrFlags : Nat) (ifrName : String)
      (ok : Bool)
  | closeFd (fd : Nat)
deriving DecidableEq, Repr

/-- Descriptors opened by a call trace and not closed again. -/
def liveFds (tr : List OsCall) : List Nat :=
  tr.foldl
    (fun acc c =>
      match c with
      | .openOk _ _ fd => acc ++ [fd]
      | .closeFd fd => acc.filter (fun x => decide (x ≠ fd))
      | _ => acc) []

/-- Does the trace contain a `close`? -/
def hasClose (tr : List OsCall) : Bool :=
  tr.any (fun c => match c with | .closeFd _ => true | _ => false)

/-- The two distinct failures of the tunnel acquirer, each carrying the
errno reported in its `IOException` message. -/
inductive TunError where
  | openFailed (er : Nat)
  | bindFailed (er : Nat)
deriving DecidableEq, Repr

/-- OS oracle for the tunnel acquirer: what `open` and
`ioctl(TUNSETIFF)` return, and the errno each failure sets. -/
structure TunEnv where
  openDev : String → Nat → Option Nat
  openErrno : Nat
  ioctlRes : Nat → Nat → Nat → String → Bool
  ioctlErrno : Nat

/-- Embedding of
`com_android_server_connectivity_ClatCoordinator_createTunInterface`:
open `/dev/net/tun` read-write, non-blocking, close-on-exec; on open
failure throw; otherwise request `IFF_TUN` framing bound to the
(strlcpy-truncated) interface name, closing the descriptor before
throwing if the ioctl fails.  Returns the outcome together with the
ordered OS-call trace. -/
def createTunInterface (e : TunEnv) (name : String) :
    Except TunError Nat × List OsCall :=
  match e.openDev "/dev/net/tun" tunOpenFlags with
  | none => (.error (.openFailed e.openErrno),
      [.openErr "/dev/net/tun" tunOpenFlags e.openErrno])
  | some fd =>
      if e.ioctlRes fd TUNSETIFF IFF_TUN (truncateIfname name) then
        (.ok fd,
         [.openOk "/dev/net/tun" tunOpenFlags fd,
          .ioctlReq fd TUNSETIFF IFF_TUN (truncateIfname name) true])
      else
        (.error (.bindFailed e.ioctlErrno),
         [.openOk "/dev/net/tun" tunOpenFlags fd,
          .ioctlReq fd TUNSETIFF IFF_TUN (truncateIfname name) false,
          .closeFd fd])

/-- Probe environment of the MTU prober: the local link's MTU, the
per-attempt probe outcome as a function of the probe destination, the
routing mark and the attempt index (`none` is a lost/failed attempt),
the bounded retry budget, and the OS errno a failed probe sets. -/
structure ProbeEnv where
  linkMtu : Nat
  probe : Nat → Nat → Nat → Option Nat
  retryBudget : Nat
  errno : Nat

/-- Modelled from the spec: the bounded retry loop of the prober —
try attempts in order until one completes, at most `n` of them. -/
def probeLoop (probe : Nat → Option Nat) : Nat → Option Nat
  | 0 => none
  | n + 1 =>
      match probe n with
      | some s => some s
      | none => probeLoop probe n

/-- Modelled from the spec: `net::clat::detect_mtu` (native helper, not
in the visible sources).  The probe destination is
`platSubnet + platSuffix`; a completed probe yields the discovered path
MTU, clamped below by the IPv6 minimum 1280 and above by the local
link's MTU; when every attempt within the retry budget is lost the call
returns `-errno` (the ProbeFailed condition), never a stale or default
MTU. -/
def detect_mtu (e : ProbeEnv) (platSubnet platSuffix mark : Nat) : Int :=
  match probeLoop (e.probe (platSubnet + platSuffix) mark) e.retryBudget with
  | some s => (min e.linkMtu (max 1280 s) : Nat)
  | none => -(e.errno : Int)

/-- Embedding of
`com_android_server_connectivity_ClatCoordinator_detectMtu`.  `pton6`
is the libc `inet_pton(AF_INET6, ...)` oracle and `strerrorFn` the libc
`strerror` oracle; on a parse failure an `IOException` is thrown before
the prober runs, a negative prober result is rethrown as an
`IOException` carrying `strerror(-ret)`, and a non-negative result is
returned as the MTU. -/
def detectMtuJNI (pton6 : String → Option Nat) (strerrorFn : Nat → String)
    (e : ProbeEnv) (platSubnet : String) (platSuffix mark : Nat) :
    JResult Int :=
  match pton6 platSubnet with
  | none => .thrown ("Invalid plat prefix address " ++ platSubnet)
  | some subnet =>
      if detect_mtu e subnet platSuffix mark < 0 then
        .thrown ("detect mtu failed: " ++
          strerrorFn (detect_mtu e subnet platSuffix mark).natAbs)
      else .ok (detect_mtu e subnet platSuffix mark)

/-! ### Theorems -/

theorem oadd_le (a b : Nat) (ha : a ≤ 65535) (hb : b ≤ 65535) : oadd a b ≤ 65535 := by
  unfold oadd; omega

theorem csum16_le (w : Nat) : csum16 w ≤ 65535 := by
  unfold csum16 oadd; omega

theorem neutralIdentifier_lt (t seed : Nat) (ht : t ≤ 65535) :
    neutralIdentifier t seed < 4294967296 := by
  unfold neutralIdentifier
  split
  · omega
  · split <;> omega

theorem csum16_mul_add (hi lo : Nat) (hhi : hi < 65536) (hlo : lo < 65536) :
    csum16 (hi * 65536 + lo) = oadd hi lo := by
  unfold csum16
  have h1 : (hi * 65536 + lo) / 65536 = hi := by
    rw [Nat.mul_comm, Nat.mul_add_div (by decide)]
    simp [Nat.div_eq_of_lt hlo]
  have h2 : (hi * 65536 + lo) % 65536 = lo := by
    rw [Nat.mul_comm, Nat.mul_add_mod]
    exact Nat.mod_eq_of_lt hlo
  rw [h1, h2, Nat.mod_eq_of_lt hhi]

theorem csum16_neutralIdentifier (t seed : Nat) (ht : t ≤ 65535) :
    csum16 (neutralIdentifier t seed) = t := by
  unfold neutralIdentifier
  have hhi : seed % 65536 < 65536 := Nat.mod_lt _ (by decide)
  split
  · rename_i h0
    rw [h0]
    decide
  · split
    · rename_i h0 hle
      rw [csum16_mul_add _ _ hhi (by omega)]
      unfold oadd
      omega
    · rename_i h0 hlt
      rw [csum16_mul_add _ _ hhi (by omega)]
      unfold oadd
      omega

theorem genLoop_found (seedFn : Nat → Nat) (assigned : List Nat)
    (pfx128 v4 : Nat) (n : Nat) (addr : Nat)
    (h : genLoop seedFn assigned pfx128 v4 n = .Found addr) :
    addr / 4294967296 = pfx128 / 4294967296 ∧
    csum16 (addr % 4294967296) = csum16 v4 := by
  induction n with
  | zero => exact absurd h (by simp [genLoop])
  | succ n ih =>
      rw [genLoop] at h
      by_cases hmem :
          pfx128 / 4294967296 * 4294967296 +
            neutralIdentifier (csum16 v4) (seedFn n) ∈ assigned
      · rw [if_pos hmem] at h
        exact ih h
      · rw [if_neg hmem] at h
        have haddr := GenResult.Found.inj h
        have hid : neutralIdentifier (csum16 v4) (seedFn n) < 4294967296 :=
          neutralIdentifier_lt _ _ (csum16_le v4)
        have hc : csum16 (neutralIdentifier (csum16 v4) (seedFn n)) = csum16 v4 :=
          csum16_neutralIdentifier _ _ (csum16_le v4)
        constructor
        · omega
        · have : addr % 4294967296 = neutralIdentifier (csum16 v4) (seedFn n) := by
            omega
          rw [this, hc]

/-- C1: for every interface name, 32-bit IPv4 address and NAT64 prefix,
whenever `generateIpv6Address` returns an address, its high 96 bits
equal the NAT64 prefix's high 96 bits, and the ones-complement 16-bit
checksum of its low 32 bits equals the checksum of the embedded IPv4
address (checksum neutrality). -/
theorem generateIpv6Address_checksum_neutral (genv : GenEnv) (iface : String)
    (v4 pfx128 addr : Nat) (_hv4 : v4 < 4294967296)
    (h : generateIpv6Address genv iface v4 pfx128 = .Found addr) :
    addr / 4294967296 = pfx128 / 4294967296 ∧
    csum16 (addr % 4294967296) = csum16 v4 :=
  genLoop_found _ _ _ _ _ _ h

/-- Concrete run of the generator: prefix 64:ff9b::/96 (high 96 bits of
the 128-bit value), IPv4 192.0.0.4, one attempt, nothing assigned. -/
theorem generateIpv6Address_checksum_neutral_witness :
    21474885636 / 4294967296 = (5 * 4294967296) / 4294967296 ∧
    csum16 (21474885636 % 4294967296) = csum16 3221225476 :=
  generateIpv6Address_checksum_neutral
    ⟨fun _ _ => 0, fun _ => [], 1⟩ "v4-wlan0" 3221225476 (5 * 4294967296)
    21474885636 (by decide) (by decide)

theorem find?_succeeds {α : Type} {p : α → Bool} {l : List α} {a : α}
    (ha : a ∈ l) (hpa : p a = true) :
    ∃ b, l.find? p = some b ∧ p b = true ∧ b ∈ l := by
  induction l with
  | nil => exact absurd ha (List.not_mem_nil a)
  | cons x t ih =>
      cases hpx : p x with
      | true => exact ⟨x, by simp [List.find?, hpx], hpx, List.mem_cons_self x t⟩
      | false =>
          have hat : a ∈ t := by
            rcases List.mem_cons.mp ha with h | h
            · exfalso
              rw [h, hpx] at hpa
              exact Bool.false_ne_true hpa
            · exact h
          obtain ⟨b, hb1, hb2, hb3⟩ := ih hat
          exact ⟨b, by simp [List.find?, hpx, hb1], hb2,
            List.mem_cons_of_mem x hb3⟩

theorem find?_fails {α : Type} {p : α → Bool} {l : List α}
    (h : ∀ x ∈ l, p x = false) : l.find? p = none := by
  induction l with
  | nil => rfl
  | cons x t ih =>
      have ht : List.find? p t = none :=
        ih (fun y hy => h y (List.mem_cons_of_mem x hy))
      simp [List.find?, h x (List.mem_cons_self x t), ht]

theorem mem_hostCandidates (base plen a : Nat)
    (h1 : networkOf base plen < a)
    (h2 : a + 1 < networkOf base plen + subnetSize plen) :
    a ∈ hostCandidates base plen := by
  unfold hostCandidates
  refine List.mem_filter.mpr ⟨?_, ?_⟩
  · refine List.mem_map.mpr ⟨a - networkOf base plen, ?_, by omega⟩
    exact List.mem_range.mpr (by omega)
  · have hpos : 0 < subnetSize plen := pow_pos (by norm_num) _
    simp only [decide_eq_true_eq]
    omega

theorem hostCandidates_bounds (base plen a : Nat)
    (h : a ∈ hostCandidates base plen) :
    networkOf base plen < a ∧
    a + 1 < networkOf base plen + subnetSize plen := by
  unfold hostCandidates at h
  obtain ⟨hmem, hflt⟩ := List.mem_filter.mp h
  obtain ⟨i, hi, hia⟩ := List.mem_map.mp hmem
  have hir := List.mem_range.mp hi
  have hpos : 0 < subnetSize plen := pow_pos (by norm_num) _
  simp only [decide_eq_true_eq] at hflt
  omega

/-- C2: for every base address and `plen ≤ 32` whose subnet has at
least one host address (neither network nor broadcast) not currently
assigned to a local interface, `selectIpv4Address` returns an address
inside the subnet that is neither the network nor the broadcast address
and is not assigned to any local interface. -/
theorem selectIpv4Address_free (assigned : List Nat) (base plen : Nat)
    (hp : plen ≤ 32)
    (hfree : ∃ a, networkOf base plen < a ∧
      a + 1 < networkOf base plen + subnetSize plen ∧ a ∉ assigned) :
    ∃ b, selectIpv4Address assigned base plen = some b ∧
      networkOf base plen < b ∧
      b + 1 < networkOf base plen + subnetSize plen ∧
      b ∉ assigned := by
  obtain ⟨a, ha1, ha2, ha3⟩ := hfree
  obtain ⟨b, hb1, hb2, hb3⟩ :=
    @find?_succeeds Nat (fun x => decide (x ∉ assigned))
      (hostCandidates base plen) a
      (mem_hostCandidates base plen a ha1 ha2) (decide_eq_true ha3)
  have hbb := hostCandidates_bounds base plen b hb3
  refine ⟨b, ?_, hbb.1, hbb.2, of_decide_eq_true hb2⟩
  unfold selectIpv4Address
  rw [if_pos hp, hb1]

/-- Concrete run: 192.0.0.4/29 with no local interface addresses; the
selector returns 192.0.0.1 (the first host of 192.0.0.0/29). -/
theorem selectIpv4Address_free_witness :
    ∃ b, selectIpv4Address [] 3221225476 29 = some b ∧
      networkOf 3221225476 29 < b ∧
      b + 1 < networkOf 3221225476 29 + subnetSize 29 ∧
      b ∉ ([] : List Nat) :=
  selectIpv4Address_free [] 3221225476 29 (by decide)
    ⟨3221225473, by decide, by decide, by decide⟩

/-- C6: for every base address and `plen ≤ 32` whose subnet has no free
host address (every candidate between network and broadcast is already
assigned), `selectIpv4Address` returns the NotFound condition. -/
theorem selectIpv4Address_exhausted (assigned : List Nat) (base plen : Nat)
    (hp : plen ≤ 32)
    (hall : ∀ a, networkOf base plen < a →
      a + 1 < networkOf base plen + subnetSize plen → a ∈ assigned) :
    selectIpv4Address assigned base plen = none := by
  unfold selectIpv4Address
  rw [if_pos hp]
  apply find?_fails
  intro x hx
  have hxb := hostCandidates_bounds base plen x hx
  simpa using hall x hxb.1 hxb.2

/-- Concrete run: 192.0.0.0/30 whose two host addresses 192.0.0.1 and
192.0.0.2 are both already assigned; the selector reports NotFound. -/
theorem selectIpv4Address_exhausted_witness :
    selectIpv4Address [3221225473, 3221225474] 3221225472 30 = none :=
  selectIpv4Address_exhausted [3221225473, 3221225474] 3221225472 30
    (by decide)
    (fun a h1 h2 => by
      have e1 : networkOf 3221225472 30 = 3221225472 := by decide
      have e2 : subnetSize 30 = 4 := by decide
      rw [e1] at h1
      rw [e1, e2] at h2
      have : a = 3221225473 ∨ a = 3221225474 := by omega
      rcases this with h | h <;> simp [h])

/-- C3 counterexample: `selectIpv4Address` given a string its IPv4
parser rejects returns bare null, with no exception raised — the
failure is not reported as a first-class error, unlike the other two
string-taking operations. -/
theorem selectIpv4AddressJNI_invalid_no_throw :
    selectIpv4AddressJNI (fun _ => none) [] "bogus" 24 = JResult.nullReturn ∧
    (selectIpv4AddressJNI (fun _ => none) [] "bogus" 24).isThrown = false :=
  ⟨rfl, rfl⟩

/-- C3 (amended): on an address string the parser rejects, each of the
three wrappers fails before any further processing — the outcome is
fixed independently of the address table, the generator environment and
every other oracle — but while `generateIpv6Address` and `detectMtu`
raise a diagnostic `IOException`, `selectIpv4Address` returns null
without raising an exception. -/
theorem invalid_address_first_class_failure :
    (∀ (pton4 : String → Option Nat) (assigned : List Nat)
      (s : String) (plen : Nat), pton4 s = none →
      selectIpv4AddressJNI pton4 assigned s plen = JResult.nullReturn) ∧
    (∀ (pton4 pton6 : String → Option Nat) (ntop6 : Nat → String)
      (genv : GenEnv) (ifname v4s pfxs : String), pton4 v4s = none →
      generateIpv6AddressJNI pton4 pton6 ntop6 genv (some ifname) v4s pfxs =
        JResult.thrown ("Invalid clat v4 address " ++ v4s)) ∧
    (∀ (pton4 pton6 : String → Option Nat) (ntop6 : Nat → String)
      (genv : GenEnv) (ifname v4s pfxs : String) (v4 : Nat),
      pton4 v4s = some v4 → pton6 pfxs = none →
      generateIpv6AddressJNI pton4 pton6 ntop6 genv (some ifname) v4s pfxs =
        JResult.thrown ("Invalid prefix " ++ pfxs)) ∧
    (∀ (pton6 : String → Option Nat) (strerrorFn : Nat → String)
      (e : ProbeEnv) (s : String) (platSuffix mark : Nat), pton6 s = none →
      detectMtuJNI pton6 strerrorFn e s platSuffix mark =
        JResult.thrown ("Invalid plat prefix address " ++ s)) := by
  refine ⟨?_, ?_, ?_, ?_⟩
  · intro pton4 assigned s plen h
    unfold selectIpv4AddressJNI
    rw [h]
  · intro pton4 pton6 ntop6 genv ifname v4s pfxs h
    unfold generateIpv6AddressJNI
    rw [h]
  · intro pton4 pton6 ntop6 genv ifname v4s pfxs v4 h4 h6
    unfold generateIpv6AddressJNI
    rw [h4, h6]
  · intro pton6 strerrorFn e s platSuffix mark h
    unfold detectMtuJNI
    rw [h]

/-- Concrete instantiation of the amended C3 statement. -/
theorem invalid_address_first_class_failure_witness :
    selectIpv4AddressJNI (fun _ => none) [] "z" 24 = JResult.nullReturn ∧
    generateIpv6AddressJNI (fun _ => none) (fun _ => none) (fun _ => "")
      ⟨fun _ _ => 0, fun _ => [], 1⟩ (some "clat") "z" "p" =
      JResult.thrown ("Invalid clat v4 address " ++ "z") ∧
    generateIpv6AddressJNI (fun _ => some 0) (fun _ => none) (fun _ => "")
      ⟨fun _ _ => 0, fun _ => [], 1⟩ (some "clat") "z" "p" =
      JResult.thrown ("Invalid prefix " ++ "p") ∧
    detectMtuJNI (fun _ => none) (fun n => toString n)
      (ProbeEnv.mk 1500 (fun _ _ _ => none) 3 110) "q" 1 9 =
      JResult.thrown ("Invalid plat prefix address " ++ "q") :=
  ⟨invalid_address_first_class_failure.1 (fun _ => none) [] "z" 24 rfl,
   invalid_address_first_class_failure.2.1 (fun _ => none) (fun _ => none)
     (fun _ => "") ⟨fun _ _ => 0, fun _ => [], 1⟩ "clat" "z" "p" rfl,
   invalid_address_first_class_failure.2.2.1 (fun _ => some 0) (fun _ => none)
     (fun _ => "") ⟨fun _ _ => 0, fun _ => [], 1⟩ "clat" "z" "p" 0 rfl rfl,
   invalid_address_first_class_failure.2.2.2 (fun _ => none) (fun n => toString n)
     (ProbeEnv.mk 1500 (fun _ _ _ => none) 3 110) "q" 1 9 rfl⟩

/-- C8 counterexample: with an empty (but non-null) interface name the
wrapper does not signal the invalid-interface failure: its null check
only fires for a null string, so the call proceeds all the way into the
address generator and here returns a generated address. -/
theorem generateIpv6AddressJNI_empty_iface_not_rejected :
    generateIpv6AddressJNI (fun _ => some 3221225476) (fun _ => some 0)
      (fun _ => "addr") ⟨fun _ _ => 0, fun _ => [], 1⟩ (some "") "v" "p" =
      JResult.ok "addr" := by
  rfl

/-- C8 (amended): only a null interface name is rejected eagerly — the
wrapper then throws the invalid-interface `IOException` before invoking
any parser or the address generator, its outcome independent of every
oracle — while an empty non-null name passes the check and is handed to
the address generator. -/
theorem generateIpv6AddressJNI_null_iface :
    (∀ (pton4 pton6 : String → Option Nat) (ntop6 : Nat → String)
      (genv : GenEnv) (v4s pfxs : String),
      generateIpv6AddressJNI pton4 pton6 ntop6 genv none v4s pfxs =
        JResult.thrown "Invalid null interface name") ∧
    (∀ (pton4 pton6 : String → Option Nat) (ntop6 : Nat → String)
      (genv : GenEnv) (v4s pfxs : String) (v4 pfx128 addr : Nat),
      pton4 v4s = some v4 → pton6 pfxs = some pfx128 →
      generateIpv6Address genv "" v4 pfx128 = .Found addr →
      generateIpv6AddressJNI pton4 pton6 ntop6 genv (some "") v4s pfxs =
        JResult.ok (ntop6 addr)) := by
  refine ⟨fun _ _ _ _ _ _ => rfl, ?_⟩
  intro pton4 pton6 ntop6 genv v4s pfxs v4 pfx128 addr h4 h6 hg
  unfold generateIpv6AddressJNI
  simp only [h4, h6, hg]

/-- Concrete instantiation of the amended C8 statement. -/
theorem generateIpv6AddressJNI_null_iface_witness :
    generateIpv6AddressJNI (fun _ => some 0) (fun _ => some 0) (fun _ => "r")
      ⟨fun _ _ => 0, fun _ => [], 1⟩ none "v" "p" =
      JResult.thrown "Invalid null interface name" ∧
    generateIpv6AddressJNI (fun _ => some 3221225476) (fun _ => some 0)
      (fun n => toString n) ⟨fun _ _ => 0, fun _ => [], 1⟩ (some "") "v" "p" =
      JResult.ok (toString 49156) :=
  ⟨generateIpv6AddressJNI_null_iface.1 (fun _ => some 0) (fun _ => some 0)
     (fun _ => "r") ⟨fun _ _ => 0, fun _ => [], 1⟩ "v" "p",
   generateIpv6AddressJNI_null_iface.2 (fun _ => some 3221225476)
     (fun _ => some 0) (fun n => toString n) ⟨fun _ _ => 0, fun _ => [], 1⟩
     "v" "p" 3221225476 0 49156 rfl rfl (by decide)⟩

theorem createTunInterface_open_fail (e : TunEnv) (name : String)
    (h : e.openDev "/dev/net/tun" tunOpenFlags = none) :
    createTunInterface e name = (.error (.openFailed e.openErrno),
      [.openErr "/dev/net/tun" tunOpenFlags e.openErrno]) := by
  unfold createTunInterface
  rw [h]

theorem createTunInterface_bind_ok (e : TunEnv) (name : String) (fd : Nat)
    (hopen : e.openDev "/dev/net/tun" tunOpenFlags = some fd)
    (hio : e.ioctlRes fd TUNSETIFF IFF_TUN (truncateIfname name) = true) :
    createTunInterface e name = (.ok fd,
      [.openOk "/dev/net/tun" tunOpenFlags fd,
       .ioctlReq fd TUNSETIFF IFF_TUN (truncateIfname name) true]) := by
  unfold createTunInterface
  rw [hopen]
  simp only [hio, if_true]

theorem createTunInterface_bind_fail (e : TunEnv) (name : String) (fd : Nat)
    (hopen : e.openDev "/dev/net/tun" tunOpenFlags = some fd)
    (hio : e.ioctlRes fd TUNSETIFF IFF_TUN (truncateIfname name) = false) :
    createTunInterface e name = (.error (.bindFailed e.ioctlErrno),
      [.openOk "/dev/net/tun" tunOpenFlags fd,
       .ioctlReq fd TUNSETIFF IFF_TUN (truncateIfname name) false,
       .closeFd fd]) := by
  unfold createTunInterface
  rw [hopen]
  simp only [hio, Bool.false_eq_true, if_false]

/-- C4: `createTunInterface` has exactly the two failure outcomes, each
reported distinctly with its own errno; on an open failure no
descriptor was ever acquired, on a binding failure the opened
descriptor is closed before the failure is reported, and on success
exactly the returned descriptor is live — no descriptor leaks on any
failure path. -/
theorem createTunInterface_failures (e : TunEnv) (name : String) :
    (∀ te : TunError, (∃ er, te = .openFailed er) ∨ (∃ er, te = .bindFailed er)) ∧
    TunError.openFailed e.openErrno ≠ TunError.bindFailed e.ioctlErrno ∧
    (∀ er, (createTunInterface e name).1 = .error (.openFailed er) →
      er = e.openErrno ∧ liveFds (createTunInterface e name).2 = []) ∧
    (∀ er, (createTunInterface e name).1 = .error (.bindFailed er) →
      er = e.ioctlErrno ∧ liveFds (createTunInterface e name).2 = [] ∧
        hasClose (createTunInterface e name).2 = true) ∧
    (∀ fd, (createTunInterface e name).1 = .ok fd →
      liveFds (createTunInterface e name).2 = [fd]) := by
  refine ⟨fun te => ?_, by simp, ?_, ?_, ?_⟩
  · cases te with
    | openFailed er => exact Or.inl ⟨er, rfl⟩
    | bindFailed er => exact Or.inr ⟨er, rfl⟩
  · intro er her
    cases hopen : e.openDev "/dev/net/tun" tunOpenFlags with
    | none =>
        rw [createTunInterface_open_fail e name hopen] at her ⊢
        simp only [Except.error.injEq, TunError.openFailed.injEq] at her
        exact ⟨her.symm, by simp [liveFds]⟩
    | some fd =>
        cases hio : e.ioctlRes fd TUNSETIFF IFF_TUN (truncateIfname name) with
        | true =>
            rw [createTunInterface_bind_ok e name fd hopen hio] at her
            simp at her
        | false =>
            rw [createTunInterface_bind_fail e name fd hopen hio] at her
            simp at her
  · intro er her
    cases hopen : e.openDev "/dev/net/tun" tunOpenFlags with
    | none =>
        rw [createTunInterface_open_fail e name hopen] at her
        simp at her
    | some fd =>
        cases hio : e.ioctlRes fd TUNSETIFF IFF_TUN (truncateIfname name) with
        | true =>
            rw [createTunInterface_bind_ok e name fd hopen hio] at her
            simp at her
        | false =>
            rw [createTunInterface_bind_fail e name fd hopen hio] at her ⊢
            simp only [Except.error.injEq, TunError.bindFailed.injEq] at her
            exact ⟨her.symm, by simp [liveFds], by simp [hasClose]⟩
  · intro fd hfd
    cases hopen : e.openDev "/dev/net/tun" tunOpenFlags with
    | none =>
        rw [createTunInterface_open_fail e name hopen] at hfd
        simp at hfd
    | some fd0 =>
        cases hio : e.ioctlRes fd0 TUNSETIFF IFF_TUN (truncateIfname name) with
        | true =>
            rw [createTunInterface_bind_ok e name fd0 hopen hio] at hfd ⊢
            simp only [Except.ok.injEq] at hfd
            rw [← hfd]
            simp [liveFds]
        | false =>
            rw [createTunInterface_bind_fail e name fd0 hopen hio] at hfd
            simp at hfd

/-- Concrete binding failure: open yields descriptor 4, the ioctl
fails; the call reports the binding errno, descriptor 4 is closed, and
nothing is left open. -/
theorem createTunInterface_failures_witness :
    13 = (TunEnv.mk (fun _ _ => some 4) 7 (fun _ _ _ _ => false) 13).ioctlErrno ∧
    liveFds (createTunInterface
      (TunEnv.mk (fun _ _ => some 4) 7 (fun _ _ _ _ => false) 13) "clat4").2 = [] ∧
    hasClose (createTunInterface
      (TunEnv.mk (fun _ _ => some 4) 7 (fun _ _ _ _ => false) 13) "clat4").2 = true :=
  (createTunInterface_failures
    (TunEnv.mk (fun _ _ => some 4) 7 (fun _ _ _ _ => false) 13) "clat4").2.2.2.1
    13 rfl

/-- C9 counterexample: a 16-character interface name on an environment
where both OS calls succeed — the call succeeds, but the name bound by
the `TUNSETIFF` request is the 15-character truncation, not the
supplied name. -/
theorem createTunInterface_long_name_not_bound_as_supplied :
    (createTunInterface
      (TunEnv.mk (fun _ _ => some 3) 0 (fun _ _ _ _ => true) 0)
      "abcdefghijklmnop").1 = .ok 3 ∧
    (createTunInterface
      (TunEnv.mk (fun _ _ => some 3) 0 (fun _ _ _ _ => true) 0)
      "abcdefghijklmnop").2 =
      [.openOk "/dev/net/tun" tunOpenFlags 3,
       .ioctlReq 3 TUNSETIFF IFF_TUN "abcdefghijklmno" true] ∧
    "abcdefghijklmno" ≠ "abcdefghijklmnop" := by
  refine ⟨rfl, ?_, by decide⟩
  show _ = _
  rfl

/-- C9 (amended): on every successful call the device was opened at
`/dev/net/tun` with read-write, non-blocking and close-on-exec flags,
the single `TUNSETIFF` request asked for point-to-point `IFF_TUN` (not
`IFF_TAP`) framing on the returned descriptor, and the bound name is
the supplied interface name truncated to `IFNAMSIZ - 1` characters —
equal to the supplied name whenever it fits. -/
theorem createTunInterface_success (e : TunEnv) (name : String) (fd : Nat)
    (h : (createTunInterface e name).1 = .ok fd) :
    (createTunInterface e name).2 =
      [.openOk "/dev/net/tun" tunOpenFlags fd,
       .ioctlReq fd TUNSETIFF IFF_TUN (truncateIfname name) true] ∧
    tunOpenFlags &&& O_RDWR ≠ 0 ∧
    tunOpenFlags &&& O_NONBLOCK ≠ 0 ∧
    tunOpenFlags &&& O_CLOEXEC ≠ 0 ∧
    IFF_TUN &&& IFF_TAP = 0 ∧
    (name.length ≤ IFNAMSIZ - 1 → truncateIfname name = name) := by
  refine ⟨?_, by decide, by decide, by decide, by decide, ?_⟩
  · cases hopen : e.openDev "/dev/net/tun" tunOpenFlags with
    | none =>
        rw [createTunInterface_open_fail e name hopen] at h
        simp at h
    | some fd0 =>
        cases hio : e.ioctlRes fd0 TUNSETIFF IFF_TUN (truncateIfname name) with
        | true =>
            rw [createTunInterface_bind_ok e name fd0 hopen hio] at h ⊢
            simp only [Except.ok.injEq] at h
            rw [h]
        | false =>
            rw [createTunInterface_bind_fail e name fd0 hopen hio] at h
            simp at h
  · intro hlen
    unfold truncateIfname
    have hdata : name.data.take (IFNAMSIZ - 1) = name.data :=
      List.take_of_length_le (by exact hlen)
    rw [hdata]

/-- Concrete successful acquisition with a fitting name. -/
theorem createTunInterface_success_witness :
    (createTunInterface
      (TunEnv.mk (fun _ _ => some 5) 0 (fun _ _ _ _ => true) 0) "v4-wlan0").2 =
      [.openOk "/dev/net/tun" tunOpenFlags 5,
       .ioctlReq 5 TUNSETIFF IFF_TUN (truncateIfname "v4-wlan0") true] ∧
    tunOpenFlags &&& O_RDWR ≠ 0 ∧
    tunOpenFlags &&& O_NONBLOCK ≠ 0 ∧
    tunOpenFlags &&& O_CLOEXEC ≠ 0 ∧
    IFF_TUN &&& IFF_TAP = 0 ∧
    ("v4-wlan0".length ≤ IFNAMSIZ - 1 → truncateIfname "v4-wlan0" = "v4-wlan0") :=
  createTunInterface_success
    (TunEnv.mk (fun _ _ => some 5) 0 (fun _ _ _ _ => true) 0) "v4-wlan0" 5 rfl

/-- C10: `createTunInterface` never validates or rejects an over-long
interface name: its behaviour on any name is identical to its behaviour
on the 15-character truncation of that name, which always fits
`ifr_name` — over-long names are silently truncated before binding
rather than failing. -/
theorem createTunInterface_truncates (e : TunEnv) (name : String) :
    createTunInterface e name =
      createTunInterface e (truncateIfname name) ∧
    (truncateIfname name).length ≤ IFNAMSIZ - 1 := by
  constructor
  · unfold createTunInterface
    have hidem : truncateIfname (truncateIfname name) = truncateIfname name := by
      simp [truncateIfname, List.take_take]
    rw [hidem]
  · have h1 : (truncateIfname name).length = min (IFNAMSIZ - 1) name.data.length := by
      show (name.data.take (IFNAMSIZ - 1)).length = _
      exact List.length_take _ _
    omega

theorem probeLoop_all_lost (probe : Nat → Option Nat) (n : Nat)
    (h : ∀ i, i < n → probe i = none) : probeLoop probe n = none := by
  induction n with
  | zero => rfl
  | succ n ih =>
      rw [probeLoop, h n (Nat.lt_succ_self n)]
      exact ih (fun i hi => h i (Nat.lt_succ_of_lt hi))

theorem detect_mtu_probe_ok (e : ProbeEnv) (platSubnet platSuffix mark s : Nat)
    (h : probeLoop (e.probe (platSubnet + platSuffix) mark) e.retryBudget =
      some s) :
    detect_mtu e platSubnet platSuffix mark =
      ((min e.linkMtu (max 1280 s) : Nat) : Int) := by
  unfold detect_mtu
  rw [h]

theorem detect_mtu_probe_fail (e : ProbeEnv) (platSubnet platSuffix mark : Nat)
    (h : probeLoop (e.probe (platSubnet + platSuffix) mark) e.retryBudget =
      none) :
    detect_mtu e platSubnet platSuffix mark = -(e.errno : Int) := by
  unfold detect_mtu
  rw [h]

/-- C5: when the local link's MTU is at least the IPv6 minimum and the
probe errno is a real error, `detect_mtu` never returns a non-negative
(success) value below 1280 or above the link MTU; and when every probe
attempt within the retry budget is lost it returns the strictly
negative ProbeFailed condition `-errno`, not any default MTU value. -/
theorem detect_mtu_bounds (e : ProbeEnv) (platSubnet platSuffix mark : Nat)
    (hlink : 1280 ≤ e.linkMtu) (herr : 0 < e.errno) :
    (0 ≤ detect_mtu e platSubnet platSuffix mark →
      1280 ≤ detect_mtu e platSubnet platSuffix mark ∧
      detect_mtu e platSubnet platSuffix mark ≤ (e.linkMtu : Int)) ∧
    ((∀ i, i < e.retryBudget →
        e.probe (platSubnet + platSuffix) mark i = none) →
      detect_mtu e platSubnet platSuffix mark = -(e.errno : Int) ∧
      detect_mtu e platSubnet platSuffix mark < 0) := by
  constructor
  · intro hpos
    cases hpl : probeLoop (e.probe (platSubnet + platSuffix) mark)
        e.retryBudget with
    | some s =>
        rw [detect_mtu_probe_ok e platSubnet platSuffix mark s hpl]
        constructor <;> omega
    | none =>
        rw [detect_mtu_probe_fail e platSubnet platSuffix mark hpl] at hpos
        exact absurd hpos (by omega)
  · intro hlost
    rw [detect_mtu_probe_fail e platSubnet platSuffix mark
      (probeLoop_all_lost _ _ hlost)]
    exact ⟨rfl, by omega⟩

/-- Concrete run in which all three allowed attempts are lost: the
prober reports `-errno` (here `-110`, `ETIMEDOUT`), a failure, not a
fallback MTU. -/
theorem detect_mtu_bounds_witness :
    detect_mtu (ProbeEnv.mk 1500 (fun _ _ _ => none) 3 110) 7 1 9 =
      -((ProbeEnv.mk 1500 (fun _ _ _ => none) 3 110).errno : Int) ∧
    detect_mtu (ProbeEnv.mk 1500 (fun _ _ _ => none) 3 110) 7 1 9 < 0 :=
  (detect_mtu_bounds (ProbeEnv.mk 1500 (fun _ _ _ => none) 3 110) 7 1 9
    (by decide) (by decide)).2 (fun i _ => rfl)

theorem detectMtuJNI_parsed (pton6 : String → Option Nat)
    (strerrorFn : Nat → String) (e : ProbeEnv) (s : String)
    (platSuffix mark subnet : Nat) (hparse : pton6 s = some subnet) :
    detectMtuJNI pton6 strerrorFn e s platSuffix mark =
      if detect_mtu e subnet platSuffix mark < 0 then
        .thrown ("detect mtu failed: " ++
          strerrorFn (detect_mtu e subnet platSuffix mark).natAbs)
      else .ok (detect_mtu e subnet platSuffix mark) := by
  unfold detectMtuJNI
  rw [hparse]

/-- C7: whenever the prober fails after the subnet string parsed, the
exception delivered to the caller carries `strerror` of the underlying
OS error code of the failed probe (`errno`); on success the result is a
positive MTU value (at least 1280). -/
theorem detectMtuJNI_error_code (pton6 : String → Option Nat)
    (strerrorFn : Nat → String) (e : ProbeEnv) (s : String)
    (platSuffix mark subnet : Nat)
    (hparse : pton6 s = some subnet) (herr : 0 < e.errno)
    (hlink : 1280 ≤ e.linkMtu) :
    (detect_mtu e subnet platSuffix mark < 0 →
      detectMtuJNI pton6 strerrorFn e s platSuffix mark =
        .thrown ("detect mtu failed: " ++ strerrorFn e.errno)) ∧
    (0 ≤ detect_mtu e subnet platSuffix mark →
      detectMtuJNI pton6 strerrorFn e s platSuffix mark =
        .ok (detect_mtu e subnet platSuffix mark) ∧
      0 < detect_mtu e subnet platSuffix mark) := by
  constructor
  · intro hneg
    cases hpl : probeLoop (e.probe (subnet + platSuffix) mark)
        e.retryBudget with
    | some v =>
        rw [detect_mtu_probe_ok e subnet platSuffix mark v hpl] at hneg
        exact absurd hneg (by omega)
    | none =>
        have hd := detect_mtu_probe_fail e subnet platSuffix mark hpl
        rw [detectMtuJNI_parsed pton6 strerrorFn e s platSuffix mark subnet
          hparse]
        rw [if_pos hneg, hd]
        have habs : (-(e.errno : Int)).natAbs = e.errno := by simp
        rw [habs]
  · intro hpos
    rw [detectMtuJNI_parsed pton6 strerrorFn e s platSuffix mark subnet
      hparse]
    rw [if_neg (not_lt.mpr hpos)]
    refine ⟨rfl, ?_⟩
    cases hpl : probeLoop (e.probe (subnet + platSuffix) mark)
        e.retryBudget with
    | some v =>
        rw [detect_mtu_probe_ok e subnet platSuffix mark v hpl]
        omega
    | none =>
        rw [detect_mtu_probe_fail e subnet platSuffix mark hpl] at hpos
        exact absurd hpos (by omega)

/-- Concrete failed probe through the bridge: the thrown message is
built from `strerror(errno)` with `errno = 110`. -/
theorem detectMtuJNI_error_code_witness :
    detectMtuJNI (fun _ => some 7) (fun n => toString n)
      (ProbeEnv.mk 1500 (fun _ _ _ => none) 3 110) "64:ff9b::" 1 9 =
      JResult.thrown ("detect mtu failed: " ++ toString 110) :=
  (detectMtuJNI_error_code (fun _ => some 7) (fun n => toString n)
    (ProbeEnv.mk 1500 (fun _ _ _ => none) 3 110) "64:ff9b::" 1 9 7
    rfl (by decide) (by decide)).1 (by decide)


end Clat
